import Mathlib

/-!
Shallow embedding of the voice-agent backend (`src/main.py` and
`src/services/tts_service.py`) of the repository
`30-Days-of-AI-Voice-Agents`.

The embedded endpoint is `POST /agent/chat/{session_id}`
(`conversational_chat` in `src/main.py`): a three-stage pipeline
(transcription with AssemblyAI, generation with Gemini, synthesis with
Murf) over a process-wide mutable store `chat_histories`.  The three
upstream services are opaque network collaborators; each request carries
an oracle describing what its upstream calls would return, and the
pipeline is a pure function of the environment, the store and the
request.

Python-specific semantics reproduced here, because the claims hinge on
them:

* `fastapi.HTTPException` is a subclass of `Exception`, so an
  `HTTPException` raised inside a `try` block is caught by a generic
  `except Exception` handler in the same function.  `str()` of a
  starlette `HTTPException` is `"{status_code}: {detail}"` (see `Exc.str`).
* truthiness of strings and optionals: `None` and `""` are falsy
  (`truthyOpt`), and `a or b` returns `b` whenever `a` is falsy (`pyOr`).
* `chat_histories.get(session_id, [])` returns the stored list *object*
  when the key is present, so the in-place `history.append(...)` that
  follows is immediately visible in the store; when the key is absent the
  local list is fresh and the store is only written by the later
  `chat_histories[session_id] = history` (see `aliasWrite`).
* `llm_text[:2999]` takes the first 2999 characters (`murfPayload`).
* `httpx.Response.raise_for_status` raises `httpx.HTTPStatusError`
  exactly when the status code is not a 2xx success code
  (`isSuccessStatus`).
-/

/-- Exceptions as the Python code distinguishes them: a
`fastapi.HTTPException` carrying a status code and a detail string, or a
plain `Exception`/`ValueError` carrying a message. -/
inductive Exc where
  | http (status : Nat) (detail : String)
  | err (msg : String)
deriving DecidableEq

/-- Python `str(e)`.  Starlette's `HTTPException.__str__` returns
`f"{status_code}: {detail}"`; `str` of a plain exception is its message. -/
def Exc.str : Exc → String
  | .http s d => toString s ++ ": " ++ d
  | .err m => m

/-- Python truthiness of an optional string: `None` and `""` are falsy. -/
def truthyOpt : Option String → Bool
  | none => false
  | some s => !(s == "")

/-- Python `a or b` on two optional strings: yields `b` when `a` is falsy
(`None` or `""`), else `a`. -/
def pyOr (a b : Option String) : Option String :=
  match a with
  | none => b
  | some s => if s == "" then b else some s

/-- Python `s.strip()`: remove leading and trailing whitespace. -/
def pyStrip (s : String) : String :=
  ⟨((s.data.dropWhile Char.isWhitespace).reverse.dropWhile
      Char.isWhitespace).reverse⟩

/-- Python `s[:n]`: the first `n` characters of `s`. -/
def pySlice (s : String) (n : Nat) : String :=
  ⟨s.data.take n⟩

/-- Occurrence test of `pat` as a contiguous sublist. -/
def hasSub (pat : List Char) : List Char → Bool
  | [] => pat.isEmpty
  | c :: rest => pat.isPrefixOf (c :: rest) || hasSub pat rest

/-- Python `pat in s` on strings: substring containment. -/
def pyIn (pat s : String) : Bool :=
  hasSub pat.data s.data

/-- The HTTP error response raised to the client: status code plus the
`detail` message of the `HTTPException`. -/
structure HErr where
  status : Nat
  detail : String
deriving DecidableEq

/-- A chat turn, embedding the dict `{"role": ..., "parts": [...]}` that
`conversational_chat` appends to the history. -/
structure Turn where
  role : String
  parts : List String
deriving DecidableEq

/-- The in-memory datastore `chat_histories : Dict[str, List[...]]` from
`src/main.py`, embedded as an association list from session id to turn
list. -/
abbrev Store := List (String × List Turn)

/-- Dictionary lookup `chat_histories[sid]` / `chat_histories.get(sid)`. -/
def storeLookup : Store → String → Option (List Turn)
  | [], _ => none
  | (k, v) :: rest, sid => if k = sid then some v else storeLookup rest sid

/-- Python `chat_histories.get(session_id, [])`: the stored history, or the
empty list when the session is unseen. -/
def storeGet (st : Store) (sid : String) : List Turn :=
  (storeLookup st sid).getD []

/-- Membership test `session_id in chat_histories`. -/
def storeHas (st : Store) (sid : String) : Bool :=
  (storeLookup st sid).isSome

/-- Dictionary assignment `chat_histories[session_id] = history`. -/
def storeSet : Store → String → List Turn → Store
  | [], sid, h => [(sid, h)]
  | (k, v) :: rest, sid, h =>
      if k = sid then (k, h) :: rest else (k, v) :: storeSet rest sid h

/-- CPython aliasing of `history = chat_histories.get(session_id, [])`
followed by an in-place `history.append(...)`: when the session is present
the stored list object itself is mutated, so the store immediately holds
the new value; when absent the local list is fresh and the store is
untouched. -/
def aliasWrite (st : Store) (sid : String) (h : List Turn) : Store :=
  if storeHas st sid then storeSet st sid h else st

/-- An AssemblyAI transcript as `conversational_chat` consumes it: the
`error` field (`None` or a message) and the `text` field. -/
structure Transcript where
  error : Option String
  text : String

/-- Outcome of `transcriber.transcribe(audio_bytes)`: either the call
itself raises, or it returns a transcript object. -/
inductive SttOutcome where
  | raised (msg : String)
  | result (tr : Transcript)

/-- Outcome of `gemini_model.generate_content(history)` followed by the
`.text` access: either some step raises, or a response whose `.text` is
`None` or a string. -/
inductive GenOutcome where
  | raised (msg : String)
  | result (text : Option String)

/-- Outcome of `httpx.AsyncClient.post` to the Murf endpoint: the call
raises (network error, timeout), or an HTTP response arrives with a status
code, a parsed JSON body (string-valued fields) and a raw `.text`. -/
inductive MurfOutcome where
  | raised (msg : String)
  | resp (status : Nat) (body : List (String × String)) (rtext : String)

/-- JSON `data.get(key)` on the parsed Murf response body. -/
def jsonGet : List (String × String) → String → Option String
  | [], _ => none
  | (k, v) :: rest, key => if k = key then some v else jsonGet rest key

/-- The request payload `{"text": ..., "voice_id": ...}` posted to the
Murf API. -/
structure MurfRequest where
  text : String
  voice_id : String

/-- Configuration and client state of the process (`src/main.py` module
level): whether `transcriber` and `gemini_model` initialised (are not
`None`), and the raw `settings.murf_api_key`. -/
structure Env where
  transcriberOk : Bool
  geminiOk : Bool
  murfKey : String

/-- One inbound chat request together with the oracle describing what its
three upstream calls would return.  `readErr` models `await file.read()`
raising; the Murf oracle is a function of the submitted payload so that
what the client submits is observable. -/
structure Request where
  session_id : String
  voice_id : String
  readErr : Option String
  stt : SttOutcome
  gen : GenOutcome
  murf : MurfRequest → MurfOutcome

/-- The successful output shape (`ChatResponse` pydantic model). -/
structure ChatResponse where
  audio_url : String
  user_text : String
  ai_text : String
deriving DecidableEq

/-- Body of the Step-1 `try` block of `conversational_chat`
(src/main.py lines 95-103): read the upload, transcribe, raise on a truthy
`transcript.error`, strip the text, and raise `HTTPException(400)` when no
speech was detected. -/
def step1Try (readErr : Option String) (stt : SttOutcome) : Except Exc String :=
  match readErr with
  | some m => .error (.err m)
  | none =>
    match stt with
    | .raised m => .error (.err m)
    | .result tr =>
      if truthyOpt tr.error then
        .error (.err (tr.error.getD ""))
      else
        let user_text := pyStrip tr.text
        if user_text == "" then
          .error (.http 400 "No speech was detected in the audio.")
        else
          .ok user_text

/-- Step 1 of `conversational_chat` (src/main.py lines 92-106): the `503`
guard on `transcriber`, then the `try` block whose generic
`except Exception` converts every exception — the `HTTPException(400)`
included, since `HTTPException` subclasses `Exception` — into a `500` with
detail `"Error in transcription: " + str(e)`. -/
def step1 (transcriberOk : Bool) (readErr : Option String) (stt : SttOutcome) :
    Except HErr String :=
  if !transcriberOk then
    .error ⟨503, "Transcription service is not available."⟩
  else
    match step1Try readErr stt with
    | .ok t => .ok t
    | .error e => .error ⟨500, "Error in transcription: " ++ e.str⟩

/-- The expression `llm_response.text.strip() if llm_response.text else ""`
(src/main.py line 116). -/
def llmTextOf (t : Option String) : String :=
  if truthyOpt t then pyStrip (t.getD "") else ""

/-- Step 2 of `conversational_chat` (src/main.py lines 108-125): the `503`
guard on `gemini_model`, then read-modify-write of `chat_histories` with
CPython aliasing: the user turn append is visible in the store as soon as
it happens (for a session already present), the model turn is appended and
the history written back only after a successful, non-empty generation;
any exception becomes a `500`. -/
def step2 (geminiOk : Bool) (st : Store) (sid user_text : String)
    (gen : GenOutcome) : Except HErr String × Store :=
  if !geminiOk then
    (.error ⟨503, "LLM service is not available."⟩, st)
  else
    let h1 := storeGet st sid ++ [⟨"user", [user_text]⟩]
    let st1 := aliasWrite st sid h1
    match gen with
    | .raised m =>
        (.error ⟨500, "Error generating LLM response: " ++ m⟩, st1)
    | .result txt =>
      let llm_text := llmTextOf txt
      if llm_text == "" then
        (.error ⟨500,
          "Error generating LLM response: LLM returned an empty response."⟩,
         st1)
      else
        let h2 := h1 ++ [⟨"model", [llm_text]⟩]
        (.ok llm_text, storeSet (aliasWrite st1 sid h2) sid h2)

/-- The configuration guard of Step 3 (src/main.py line 128): the Murf key
is usable unless it is empty or contains the placeholder
`"your_murf_api_key"`. -/
def murfConfigured (key : String) : Bool :=
  !(key == "") && !(pyIn "your_murf_api_key" key)

/-- The payload built at src/main.py lines 131-137 (and equally
`src/services/tts_service.py` line 20): the generated text truncated to its
first 2999 characters (`llm_text[:2999]`) plus the voice id. -/
def murfPayload (llm_text voice_id : String) : MurfRequest :=
  ⟨pySlice llm_text 2999, voice_id⟩

/-- Python `raise_for_status` raises unless the status code is 2xx. -/
def isSuccessStatus (s : Nat) : Bool :=
  200 ≤ s && s < 300

/-- Body of the Step-3 `try` block after the Murf call returned
(src/main.py lines 141-153): `raise_for_status` mapping a non-2xx response
to an `HTTPException` with the upstream status and text; otherwise read
`audio_url` or `audioFile` from the JSON body, rejecting a falsy value
with a `500`. -/
def step3Try (outcome : MurfOutcome) : Except HErr String :=
  match outcome with
  | .raised m => .error ⟨500, "Error in TTS generation: " ++ m⟩
  | .resp status body rtext =>
    if !isSuccessStatus status then
      .error ⟨status, "TTS service error: " ++ rtext⟩
    else
      let audio_url := pyOr (jsonGet body "audio_url") (jsonGet body "audioFile")
      if truthyOpt audio_url then
        .ok (audio_url.getD "")
      else
        .error ⟨500,
          "Error in TTS generation: TTS API did not return an audio URL."⟩

/-- Step 3 of `conversational_chat` (src/main.py lines 127-153): the `503`
configuration guard, then the post of the truncated payload and the
handling of its outcome. -/
def step3 (murfKey voice_id llm_text : String)
    (murf : MurfRequest → MurfOutcome) : Except HErr String :=
  if !murfConfigured murfKey then
    .error ⟨503, "TTS service is not configured."⟩
  else
    step3Try (murf (murfPayload llm_text voice_id))

/-- The endpoint `conversational_chat` of `src/main.py` (lines 84-153): the
three stages in sequence; a raised `HTTPException` aborts the request and
leaves the store in whatever state the completed part of Step 2 produced.
Returns the HTTP outcome together with the final `chat_histories`. -/
def conversational_chat (env : Env) (st : Store) (req : Request) :
    Except HErr ChatResponse × Store :=
  match step1 env.transcriberOk req.readErr req.stt with
  | .error e => (.error e, st)
  | .ok user_text =>
    match step2 env.geminiOk st req.session_id user_text req.gen with
    | (.error e, st2) => (.error e, st2)
    | (.ok llm_text, st2) =>
      match step3 env.murfKey req.voice_id llm_text req.murf with
      | .error e => (.error e, st2)
      | .ok audio_url => (.ok ⟨audio_url, user_text, llm_text⟩, st2)

/-- Condition under which the generation stage of `conversational_chat`
fails, read off the oracle: `generate_content` (or the `.text` access)
raises, or the response text is falsy / strips to the empty string. -/
def genFailsB : GenOutcome → Bool
  | .raised _ => true
  | .result t => llmTextOf t == ""

/-- Condition under which the Murf call outcome makes Step 3 succeed: a
2xx response whose JSON carries a truthy `audio_url` or `audioFile`. -/
def murfOutcomeOk : MurfOutcome → Bool
  | .raised _ => false
  | .resp status body _ =>
      isSuccessStatus status &&
        truthyOpt (pyOr (jsonGet body "audio_url") (jsonGet body "audioFile"))

/-- Success of an entire chat request: all three stages complete.  The
predicate is store-independent, because each oracle outcome is carried by
the request itself. -/
def callSucceeds (env : Env) (r : Request) : Bool :=
  match step1 env.transcriberOk r.readErr r.stt with
  | .error _ => false
  | .ok _ =>
    env.geminiOk &&
      match r.gen with
      | .raised _ => false
      | .result t =>
        !(llmTextOf t == "") && murfConfigured env.murfKey &&
          murfOutcomeOk (r.murf (murfPayload (llmTextOf t) r.voice_id))

/-- Sequential execution of a list of chat requests against the shared
`chat_histories` store, threading the store from call to call. -/
def runChats (env : Env) : Store → List Request → Store
  | st, [] => st
  | st, r :: rs => runChats env (conversational_chat env st r).2 rs

/-- Role string of the turn. -/
def rolesOf (h : List Turn) : List String :=
  h.map Turn.role

/-- The alternating role sequence `["user", "model", "user", ...]` of
length `n`. -/
def altRoles (n : Nat) : List String :=
  (List.range n).map (fun i => if i % 2 = 0 then "user" else "model")

/-- Events visible on one websocket connection, from the server's side. -/
inductive WsEvent where
  | sent (msg : String)
  | received (msg : String)
deriving DecidableEq

/-- Modelled from the spec: the reply loop of the `WS /ws` echo endpoint.
The repository's websocket endpoint is not part of the code under `src/`
(`src/main.py` declares only `GET /` and `POST /agent/chat/{session_id}`);
spec §4.6/§6 describes it: every received text frame is answered with
`"Echo: " + frame`. -/
def wsReplies : List String → List WsEvent
  | [] => []
  | f :: fs => .received f :: .sent ("Echo: " ++ f) :: wsReplies fs

/-- Modelled from the spec: a full `WS /ws` session over a list of
incoming frames — on connect the server sends the fixed greeting once,
then runs the reply loop until the peer disconnects. -/
def wsRun (greeting : String) (frames : List String) : List WsEvent :=
  .sent greeting :: wsReplies frames

/-- Messages sent by the server, in order, during a websocket session. -/
def sentMsgs : List WsEvent → List String
  | [] => []
  | .sent m :: evs => m :: sentMsgs evs
  | .received _ :: evs => sentMsgs evs

/-- Sample environment with all three clients configured. -/
def okEnv : Env := ⟨true, true, "murf-key"⟩

/-- Sample request whose three upstream calls all succeed. -/
def okReq (sid : String) : Request :=
  ⟨sid, "en-US-natalie", none, .result ⟨none, "hi"⟩, .result (some "yo"),
    fun _ => .resp 200 [("audio_url", "http://x/1.mp3")] "ok"⟩

theorem storeLookup_storeSet_self (st : Store) (sid : String) (h : List Turn) :
    storeLookup (storeSet st sid h) sid = some h := by
  induction st with
  | nil => simp [storeSet, storeLookup]
  | cons kv rest ih =>
    obtain ⟨k, v⟩ := kv
    by_cases hk : k = sid <;> simp [storeSet, storeLookup, hk, ih]

theorem storeGet_storeSet_self (st : Store) (sid : String) (h : List Turn) :
    storeGet (storeSet st sid h) sid = h := by
  simp [storeGet, storeLookup_storeSet_self]

theorem storeSet_storeSet (st : Store) (sid : String) (a b : List Turn) :
    storeSet (storeSet st sid a) sid b = storeSet st sid b := by
  induction st with
  | nil => simp [storeSet]
  | cons kv rest ih =>
    obtain ⟨k, v⟩ := kv
    by_cases hk : k = sid <;> simp [storeSet, hk, ih]

theorem storeSet_aliasWrite (st : Store) (sid : String) (a b : List Turn) :
    storeSet (aliasWrite st sid a) sid b = storeSet st sid b := by
  unfold aliasWrite
  by_cases hk : storeHas st sid <;> simp [hk, storeSet_storeSet]

theorem aliasWrite_of_absent (st : Store) (sid : String) (a : List Turn)
    (h : storeLookup st sid = none) : aliasWrite st sid a = st := by
  simp [aliasWrite, storeHas, h]

theorem aliasWrite_of_present (st : Store) (sid : String) (a : List Turn)
    (h0 : List Turn) (h : storeLookup st sid = some h0) :
    aliasWrite st sid a = storeSet st sid a := by
  simp [aliasWrite, storeHas, h]

theorem str_append_ne (a b : String) (h : a ≠ "") : a ++ b ≠ "" := by
  intro hab
  apply h
  have hd : a.data ++ b.data = [] := by
    have hc := congrArg String.data hab
    simpa [String.data_append] using hc
  exact String.ext (by simp [(List.append_eq_nil.mp hd).1])

theorem step1Try_ok_ne {re : Option String} {stt : SttOutcome} {ut : String}
    (h : step1Try re stt = .ok ut) : ut ≠ "" := by
  unfold step1Try at h
  repeat' split at h
  any_goals simp_all
  rename_i tr hterr
  by_cases htr : pyStrip tr.text = "" <;> simp [htr] at h
  simp_all

theorem step1_ok_true {re : Option String} {stt : SttOutcome} {ut : String}
    (h : step1 true re stt = .ok ut) : step1Try re stt = .ok ut := by
  unfold step1 at h
  simp only [Bool.not_true, Bool.false_eq_true, if_false] at h
  split at h <;> simp_all

theorem step1_ok_ne {a : Bool} {re : Option String} {stt : SttOutcome}
    {ut : String} (h : step1 a re stt = .ok ut) : ut ≠ "" := by
  cases a with
  | false => simp [step1] at h
  | true => exact step1Try_ok_ne (step1_ok_true h)

theorem step1_error_detail {a : Bool} {re : Option String} {stt : SttOutcome}
    {e : HErr} (h : step1 a re stt = .error e) : e.detail ≠ "" := by
  unfold step1 at h
  split at h
  · cases h; decide
  · split at h
    · cases h
    · cases h
      exact str_append_ne "Error in transcription: " _ (by decide)

theorem chat_ok_effect (env : Env) (st : Store) (r : Request)
    (h : callSucceeds env r = true) :
    ∃ ut lt url, ut ≠ "" ∧ lt ≠ "" ∧ url ≠ "" ∧
      conversational_chat env st r
        = (.ok ⟨url, ut, lt⟩,
           storeSet st r.session_id
             (storeGet st r.session_id ++ [⟨"user", [ut]⟩, ⟨"model", [lt]⟩])) := by
  unfold callSucceeds at h
  rcases hs1 : step1 env.transcriberOk r.readErr r.stt with e | ut
  · rw [hs1] at h; simp at h
  · rw [hs1] at h
    rcases hgen : r.gen with m | t
    · rw [hgen] at h; simp at h
    · rw [hgen] at h
      simp only [Bool.and_eq_true, Bool.not_eq_true', beq_eq_false_iff_ne] at h
      obtain ⟨hg, ⟨hlt, hcfg⟩, hmo⟩ := h
      rcases hmu : r.murf (murfPayload (llmTextOf t) r.voice_id) with
        m | ⟨status, body, rtext⟩
      · rw [hmu] at hmo; simp [murfOutcomeOk] at hmo
      · rw [hmu] at hmo
        simp only [murfOutcomeOk, Bool.and_eq_true] at hmo
        obtain ⟨hst, hurl⟩ := hmo
        rcases hpy : pyOr (jsonGet body "audio_url") (jsonGet body "audioFile")
          with _ | u
        · rw [hpy] at hurl; simp [truthyOpt] at hurl
        · rw [hpy] at hurl
          simp only [truthyOpt, Bool.not_eq_true', beq_eq_false_iff_ne] at hurl
          refine ⟨ut, llmTextOf t, u, step1_ok_ne hs1, hlt, hurl, ?_⟩
          simp only [conversational_chat, hs1, step2, hg, Bool.not_true,
            Bool.false_eq_true, if_false, hgen, beq_eq_false_iff_ne.mpr hlt,
            step3, hcfg, step3Try, hmu, hst, hpy, truthyOpt,
            beq_eq_false_iff_ne.mpr hurl, Bool.not_false, Option.getD_some]
          rw [storeSet_aliasWrite, storeSet_aliasWrite]
          simp

theorem chat_err_detail (env : Env) (st : Store) (r : Request)
    (h : callSucceeds env r = false) :
    ∃ e, (conversational_chat env st r).1 = .error e ∧ e.detail ≠ "" := by
  unfold callSucceeds at h
  rcases hs1 : step1 env.transcriberOk r.readErr r.stt with e | ut
  · exact ⟨e, by simp [conversational_chat, hs1], step1_error_detail hs1⟩
  · rw [hs1] at h
    by_cases hg : env.geminiOk = true
    case neg =>
      rw [Bool.not_eq_true] at hg
      refine ⟨⟨503, "LLM service is not available."⟩, ?_, by decide⟩
      simp [conversational_chat, hs1, step2, hg]
    case pos =>
      rcases hgen : r.gen with m | t
      · refine ⟨⟨500, "Error generating LLM response: " ++ m⟩, ?_,
          str_append_ne _ _ (by decide)⟩
        simp [conversational_chat, hs1, step2, hg, hgen]
      · rw [hgen] at h
        by_cases hlt : llmTextOf t = ""
        · refine ⟨⟨500,
            "Error generating LLM response: LLM returned an empty response."⟩,
            ?_, by decide⟩
          simp [conversational_chat, hs1, step2, hg, hgen, hlt]
        · by_cases hcfg : murfConfigured env.murfKey = true
          case neg =>
            rw [Bool.not_eq_true] at hcfg
            refine ⟨⟨503, "TTS service is not configured."⟩, ?_, by decide⟩
            simp [conversational_chat, hs1, step2, hg, hgen,
              beq_eq_false_iff_ne.mpr hlt, step3, hcfg]
          case pos =>
            rcases hmu : r.murf (murfPayload (llmTextOf t) r.voice_id) with
              m | ⟨status, body, rtext⟩
            · refine ⟨⟨500, "Error in TTS generation: " ++ m⟩, ?_,
                str_append_ne _ _ (by decide)⟩
              simp [conversational_chat, hs1, step2, hg, hgen,
                beq_eq_false_iff_ne.mpr hlt, step3, hcfg, step3Try, hmu]
            · by_cases hst : isSuccessStatus status = true
              case neg =>
                rw [Bool.not_eq_true] at hst
                refine ⟨⟨status, "TTS service error: " ++ rtext⟩, ?_,
                  str_append_ne _ _ (by decide)⟩
                simp [conversational_chat, hs1, step2, hg, hgen,
                  beq_eq_false_iff_ne.mpr hlt, step3, hcfg, step3Try, hmu, hst]
              case pos =>
                have hurl : truthyOpt
                    (pyOr (jsonGet body "audio_url") (jsonGet body "audioFile"))
                    = false := by
                  by_contra hc
                  rw [Bool.not_eq_false] at hc
                  apply absurd h
                  simp [hg, beq_eq_false_iff_ne.mpr hlt, hcfg, murfOutcomeOk,
                    hmu, hst, hc]
                refine ⟨⟨500,
                  "Error in TTS generation: TTS API did not return an audio URL."⟩,
                  ?_, by decide⟩
                simp [conversational_chat, hs1, step2, hg, hgen,
                  beq_eq_false_iff_ne.mpr hlt, step3, hcfg, step3Try, hmu, hst,
                  hurl]

theorem step2_fail_effect (st : Store) (sid ut : String) (gen : GenOutcome)
    (hfail : genFailsB gen = true) :
    ∃ m, step2 true st sid ut gen
      = (.error ⟨500, m⟩,
         aliasWrite st sid (storeGet st sid ++ [⟨"user", [ut]⟩])) := by
  rcases gen with m | t
  · exact ⟨"Error generating LLM response: " ++ m, by simp [step2]⟩
  · have hlt : llmTextOf t = "" := by simpa [genFailsB] using hfail
    exact ⟨"Error generating LLM response: LLM returned an empty response.",
      by simp [step2, hlt]⟩

/-- C1: the spec says a request whose transcription succeeds but yields
empty text after trimming is answered with HTTP 400.  The code does build
`HTTPException(400, "No speech was detected in the audio.")` — but raises
it inside the Step-1 `try` block, whose generic `except Exception` handler
catches it (`HTTPException` subclasses `Exception`) and re-raises it as a
500 whose detail embeds the stringified 400.  Evaluating the pipeline at
such an input shows the client receives status 500, not 400. -/
theorem C1_no_speech_yields_500 :
    (conversational_chat ⟨true, true, "murf-key"⟩ []
        ⟨"s1", "en-US-natalie", none, .result ⟨none, "   "⟩,
          .result (some "x"), fun _ => .resp 200 [("audio_url", "u")] "ok"⟩).1
      = .error ⟨500,
          "Error in transcription: 400: No speech was detected in the audio."⟩ := by
  rfl

/-- C2 counterexample: with only the synthesis key unconfigured (and both
other clients available), a request with a successful transcription and
generation still runs those two stages and commits both turns to the
store before failing with the 503 — refuting "no downstream call is made
and the Conversation Store is not mutated". -/
theorem C2_counterexample :
    conversational_chat ⟨true, true, ""⟩ []
        ⟨"s1", "v", none, .result ⟨none, "hi"⟩, .result (some "yo"),
          fun _ => .raised "unreachable"⟩
      = (.error ⟨503, "TTS service is not configured."⟩,
         [("s1", [⟨"user", ["hi"]⟩, ⟨"model", ["yo"]⟩])]) ∧
    ([("s1", [⟨"user", ["hi"]⟩, ⟨"model", ["yo"]⟩])] : Store) ≠ [] := by
  exact ⟨rfl, by decide⟩

/-- C2, amended: availability of each downstream client is checked at the
start of its own stage, not all up front.  An unavailable transcription
client yields the 503 with no work done and no store mutation; an
unavailable generation client yields the 503 with no store mutation (but
after the transcription call); an unconfigured synthesis key yields the
503 only after transcription and generation completed, with the store
already holding the committed turns of the successful generation. -/
theorem C2_amended_stagewise_503 :
    (∀ (env : Env) (st : Store) (req : Request),
      env.transcriberOk = false →
      conversational_chat env st req
        = (.error ⟨503, "Transcription service is not available."⟩, st)) ∧
    (∀ (env : Env) (st : Store) (req : Request) (ut : String),
      env.geminiOk = false →
      step1 env.transcriberOk req.readErr req.stt = .ok ut →
      conversational_chat env st req
        = (.error ⟨503, "LLM service is not available."⟩, st)) ∧
    (∀ (env : Env) (st : Store) (req : Request) (ut lt : String) (st2 : Store),
      murfConfigured env.murfKey = false →
      step1 env.transcriberOk req.readErr req.stt = .ok ut →
      step2 env.geminiOk st req.session_id ut req.gen = (.ok lt, st2) →
      conversational_chat env st req
        = (.error ⟨503, "TTS service is not configured."⟩, st2)) := by
  refine ⟨?_, ?_, ?_⟩
  · intro env st req h
    simp [conversational_chat, step1, h]
  · intro env st req ut hg h1
    simp [conversational_chat, h1, step2, hg]
  · intro env st req ut lt st2 hm h1 h2
    simp [conversational_chat, h1, h2, step3, hm]

/-- C2 witness: the three parts of the amended statement instantiated at
concrete requests. -/
theorem C2_witness :
    conversational_chat ⟨false, true, "murf-key"⟩ []
        ⟨"s1", "v", none, .raised "x", .raised "y", fun _ => .raised "z"⟩
      = (.error ⟨503, "Transcription service is not available."⟩, []) ∧
    conversational_chat ⟨true, false, "murf-key"⟩ []
        ⟨"s1", "v", none, .result ⟨none, "hi"⟩, .raised "y",
          fun _ => .raised "z"⟩
      = (.error ⟨503, "LLM service is not available."⟩, []) ∧
    conversational_chat ⟨true, true, ""⟩ []
        ⟨"s1", "v", none, .result ⟨none, "hi"⟩, .result (some "yo"),
          fun _ => .raised "z"⟩
      = (.error ⟨503, "TTS service is not configured."⟩,
         [("s1", [⟨"user", ["hi"]⟩, ⟨"model", ["yo"]⟩])]) :=
  ⟨C2_amended_stagewise_503.1 _ _ _ rfl,
   C2_amended_stagewise_503.2.1 _ _ _ "hi" rfl (by rfl),
   C2_amended_stagewise_503.2.2 _ _ _ "hi" "yo" _ rfl (by rfl) (by rfl)⟩

/-- C3 counterexample: on a session id with no entry yet in the store, a
request whose transcription succeeds and whose generation raises leaves
the store *without* the user turn — `chat_histories.get(sid, [])` handed
out a fresh list, and the write-back never runs — refuting the claim for
fresh sessions ("for every session"). -/
theorem C3_counterexample_fresh_session :
    conversational_chat ⟨true, true, "murf-key"⟩ []
        ⟨"s1", "v", none, .result ⟨none, "hi"⟩, .raised "boom",
          fun _ => .raised "z"⟩
      = (.error ⟨500, "Error generating LLM response: boom"⟩, []) ∧
    storeGet
      (conversational_chat ⟨true, true, "murf-key"⟩ []
        ⟨"s1", "v", none, .result ⟨none, "hi"⟩, .raised "boom",
          fun _ => .raised "z"⟩).2 "s1" = [] := by
  exact ⟨rfl, rfl⟩

/-- C3, amended: for every session that already has an entry in the
Conversation Store, a chat request whose transcription succeeds but whose
generation stage fails leaves the stored history equal to the prior
history plus the newly appended user turn — no model turn, no rollback —
because the in-place `history.append` aliases the stored list. -/
theorem C3_amended_existing_session
    (env : Env) (st : Store) (req : Request) (ut : String) (h0 : List Turn)
    (hg : env.geminiOk = true)
    (h1 : step1 env.transcriberOk req.readErr req.stt = .ok ut)
    (hmem : storeLookup st req.session_id = some h0)
    (hfail : genFailsB req.gen = true) :
    storeGet (conversational_chat env st req).2 req.session_id
      = h0 ++ [⟨"user", [ut]⟩] ∧
    ∃ m, (conversational_chat env st req).1 = .error ⟨500, m⟩ := by
  obtain ⟨m, hm⟩ := step2_fail_effect st req.session_id ut req.gen hfail
  have hget : storeGet st req.session_id = h0 := by simp [storeGet, hmem]
  have hpipe : conversational_chat env st req
      = (.error ⟨500, m⟩,
         aliasWrite st req.session_id (storeGet st req.session_id
           ++ [⟨"user", [ut]⟩])) := by
    simp only [conversational_chat, h1, hg, hm]
  constructor
  · rw [hpipe]
    rw [hget, aliasWrite_of_present st _ _ h0 hmem, storeGet_storeSet_self]
  · exact ⟨m, by rw [hpipe]⟩

/-- C3 witness: the amended statement at a session holding one prior
exchange; the failed generation leaves exactly the old turns plus the new
user turn. -/
theorem C3_witness :
    storeGet
      (conversational_chat ⟨true, true, "murf-key"⟩
        [("s1", [⟨"user", ["a"]⟩, ⟨"model", ["b"]⟩])]
        ⟨"s1", "v", none, .result ⟨none, "hi"⟩, .raised "boom",
          fun _ => .raised "z"⟩).2 "s1"
      = [⟨"user", ["a"]⟩, ⟨"model", ["b"]⟩, ⟨"user", ["hi"]⟩] ∧
    ∃ m,
      (conversational_chat ⟨true, true, "murf-key"⟩
        [("s1", [⟨"user", ["a"]⟩, ⟨"model", ["b"]⟩])]
        ⟨"s1", "v", none, .result ⟨none, "hi"⟩, .raised "boom",
          fun _ => .raised "z"⟩).1 = .error ⟨500, m⟩ :=
  C3_amended_existing_session _ _ _ "hi" [⟨"user", ["a"]⟩, ⟨"model", ["b"]⟩]
    rfl (by rfl) (by rfl) (by rfl)

/-- C4: a failing transcription stage — the `503` guard, a raised upstream
error, or empty/silent audio — aborts the request before Step 2, so the
Conversation Store is returned exactly as it was. -/
theorem C4_failed_transcription_leaves_store
    (env : Env) (st : Store) (req : Request) (e : HErr)
    (h : step1 env.transcriberOk req.readErr req.stt = .error e) :
    conversational_chat env st req = (.error e, st) := by
  simp [conversational_chat, h]

/-- C4 witness: a transcript whose upstream `error` field is set leaves a
non-empty store untouched. -/
theorem C4_witness :
    conversational_chat ⟨true, true, "murf-key"⟩
        [("s1", [⟨"user", ["a"]⟩])]
        ⟨"s1", "v", none, .result ⟨some "upstream fault", ""⟩, .raised "y",
          fun _ => .raised "z"⟩
      = (.error ⟨500, "Error in transcription: upstream fault"⟩,
         [("s1", [⟨"user", ["a"]⟩])]) :=
  C4_failed_transcription_leaves_store _ _ _ _ (by rfl)

/-- C10: for a session id with no entry in the store, a request whose
transcription succeeds but whose generation stage fails leaves the store
without any entry for that id: the user turn lived only in the fresh local
list, and `chat_histories[session_id] = history` runs only after a
successful generation. -/
theorem C10_fresh_session_gen_failure_no_entry
    (env : Env) (st : Store) (req : Request) (ut : String)
    (hfresh : storeLookup st req.session_id = none)
    (h1 : step1 env.transcriberOk req.readErr req.stt = .ok ut)
    (hfail : genFailsB req.gen = true) :
    (conversational_chat env st req).2 = st ∧
    storeLookup (conversational_chat env st req).2 req.session_id = none := by
  have key : (conversational_chat env st req).2 = st := by
    cases hg : env.geminiOk with
    | false => simp [conversational_chat, h1, step2, hg]
    | true =>
      obtain ⟨m, hm⟩ := step2_fail_effect st req.session_id ut req.gen hfail
      simp only [conversational_chat, h1, hg, hm]
      exact aliasWrite_of_absent st _ _ hfresh
  exact ⟨key, by rw [key]; exact hfresh⟩

theorem altRoles_two_mul_succ (k : Nat) :
    altRoles (2 * (k + 1)) = altRoles (2 * k) ++ ["user", "model"] := by
  have h2 : 2 * (k + 1) = (2 * k + 1) + 1 := by ring
  have he : (2 * k) % 2 = 0 := by omega
  have ho : (2 * k + 1) % 2 = 1 := by omega
  rw [h2]
  simp [altRoles, List.range_succ, he, ho]

theorem runChats_roles (env : Env) (sid : String) (reqs : List Request) :
    ∀ (st : Store) (k : Nat),
      (∀ r ∈ reqs, r.session_id = sid ∧ callSucceeds env r = true) →
      rolesOf (storeGet st sid) = altRoles (2 * k) →
      rolesOf (storeGet (runChats env st reqs) sid)
        = altRoles (2 * (k + reqs.length)) := by
  induction reqs with
  | nil =>
    intro st k _ hst
    simpa [runChats] using hst
  | cons r rs ih =>
    intro st k hall hst
    obtain ⟨hsid, hsucc⟩ := hall r (by simp)
    obtain ⟨ut, lt, url, _, _, _, heff⟩ := chat_ok_effect env st r hsucc
    have h2 : (conversational_chat env st r).2
        = storeSet st r.session_id
            (storeGet st r.session_id
              ++ [⟨"user", [ut]⟩, ⟨"model", [lt]⟩]) := by rw [heff]
    have hstep : runChats env st (r :: rs)
        = runChats env (conversational_chat env st r).2 rs := rfl
    have hlen : k + (r :: rs).length = (k + 1) + rs.length := by
      simp [List.length_cons]; omega
    rw [hstep, h2, hsid, hlen]
    apply ih _ (k + 1) (fun q hq => hall q (List.mem_cons_of_mem _ hq))
    rw [storeGet_storeSet_self, altRoles_two_mul_succ, ← hst]
    simp [rolesOf]

/-- C5: starting from an empty store, after `N` fully successful chat
calls on a session the stored turn sequence has length exactly `2N` and
its roles alternate `user, model, user, model, ...` starting with
`user`. -/
theorem C5_turns_after_N_successes
    (env : Env) (sid : String) (reqs : List Request)
    (hall : ∀ r ∈ reqs, r.session_id = sid ∧ callSucceeds env r = true) :
    (storeGet (runChats env [] reqs) sid).length = 2 * reqs.length ∧
    rolesOf (storeGet (runChats env [] reqs) sid)
      = altRoles (2 * reqs.length) := by
  have hroles := runChats_roles env sid reqs [] 0 hall
    (by simp [storeGet, storeLookup, rolesOf, altRoles])
  rw [Nat.zero_add] at hroles
  refine ⟨?_, hroles⟩
  have hlen := congrArg List.length hroles
  simpa [rolesOf, altRoles] using hlen

/-- C5 witness: two successful calls on session `"s1"` leave four turns
with roles user, model, user, model. -/
theorem C5_witness :
    (storeGet (runChats okEnv [] [okReq "s1", okReq "s1"]) "s1").length
      = 2 * 2 ∧
    rolesOf (storeGet (runChats okEnv [] [okReq "s1", okReq "s1"]) "s1")
      = altRoles (2 * 2) :=
  C5_turns_after_N_successes okEnv "s1" [okReq "s1", okReq "s1"] (by decide)

/-- C6: the payload submitted to the synthesis service carries exactly the
first 2999 characters of the generated text (`llm_text[:2999]`, identical
in `src/main.py` line 131 and `src/services/tts_service.py` line 20):
longer text is truncated to its first 2999 characters — not rejected —
and text of length at most 2999 is submitted unchanged. -/
theorem C6_murf_truncation (t v : String) :
    (murfPayload t v).text.data = t.data.take 2999 ∧
    (t.length ≤ 2999 → murfPayload t v = ⟨t, v⟩) ∧
    (2999 < t.length → (murfPayload t v).text.length = 2999) := by
  refine ⟨rfl, ?_, ?_⟩
  · intro h
    have hd : t.data.length ≤ 2999 := h
    have htake : t.data.take 2999 = t.data := List.take_of_length_le hd
    simp [murfPayload, pySlice, htake]
  · intro h
    have hd : 2999 < t.data.length := h
    simp only [murfPayload, pySlice]
    show (List.take 2999 t.data).length = 2999
    rw [List.length_take]
    omega

/-- C6 witness: a short text passes through unchanged; a 3000-character
text is cut to 2999 characters. -/
theorem C6_witness :
    murfPayload "hi" "en-US-natalie" = ⟨"hi", "en-US-natalie"⟩ ∧
    (murfPayload (String.mk (List.replicate 3000 'a')) "v").text.length
      = 2999 :=
  ⟨(C6_murf_truncation "hi" "en-US-natalie").2.1 (by decide),
   (C6_murf_truncation (String.mk (List.replicate 3000 'a')) "v").2.2
     (by
       have hlen : (String.mk (List.replicate 3000 'a')).length = 3000 := by
         show (List.replicate 3000 'a').length = 3000
         rw [List.length_replicate]
       omega)⟩

/-- C7: a successful (2xx) synthesis response whose JSON has a non-empty
URL under `audioFile` but no `audio_url` field — or under `audio_url` but
no `audioFile` field — is accepted, and that URL is returned
(`data.get("audio_url") or data.get("audioFile")`). -/
theorem C7_alternate_url_fields
    (key v lt rtext u : String) (status : Nat)
    (body : List (String × String))
    (hk : murfConfigured key = true)
    (hs : isSuccessStatus status = true)
    (hu : u ≠ "")
    (hcase :
      (jsonGet body "audio_url" = none ∧ jsonGet body "audioFile" = some u)
      ∨ (jsonGet body "audio_url" = some u ∧ jsonGet body "audioFile" = none)) :
    step3 key v lt (fun _ => .resp status body rtext) = .ok u := by
  rcases hcase with ⟨h1, h2⟩ | ⟨h1, h2⟩ <;>
    simp [step3, step3Try, hk, hs, h1, h2, pyOr, truthyOpt, hu]

/-- C7 witness: both single-field bodies at status 200 return their URL. -/
theorem C7_witness :
    step3 "murf-key" "v" "text"
        (fun _ => .resp 200 [("audioFile", "http://x/a.mp3")] "")
      = .ok "http://x/a.mp3" ∧
    step3 "murf-key" "v" "text"
        (fun _ => .resp 200 [("audio_url", "http://x/b.mp3")] "")
      = .ok "http://x/b.mp3" :=
  ⟨C7_alternate_url_fields "murf-key" "v" "text" "" "http://x/a.mp3" 200
      [("audioFile", "http://x/a.mp3")] (by decide) (by decide) (by decide)
      (.inl ⟨rfl, rfl⟩),
   C7_alternate_url_fields "murf-key" "v" "text" "" "http://x/b.mp3" 200
      [("audio_url", "http://x/b.mp3")] (by decide) (by decide) (by decide)
      (.inr ⟨rfl, rfl⟩)⟩

/-- C8: a chat request returns the success shape exactly when all three
stages complete (`callSucceeds`); a returned `ChatResponse` always has all
three fields non-empty (never partially populated), and every failure
carries a non-empty human-readable detail message. -/
theorem C8_success_iff_all_stages (env : Env) (st : Store) (req : Request) :
    ((∃ resp, (conversational_chat env st req).1 = .ok resp)
        ↔ callSucceeds env req = true) ∧
    (∀ resp, (conversational_chat env st req).1 = .ok resp →
       resp.audio_url ≠ "" ∧ resp.user_text ≠ "" ∧ resp.ai_text ≠ "") ∧
    (∀ e, (conversational_chat env st req).1 = .error e → e.detail ≠ "") := by
  by_cases hs : callSucceeds env req = true
  case pos =>
    obtain ⟨ut, lt, url, hut, hlt, hurl, heff⟩ := chat_ok_effect env st req hs
    have h1 : (conversational_chat env st req).1 = .ok ⟨url, ut, lt⟩ := by
      rw [heff]
    refine ⟨⟨fun _ => hs, fun _ => ⟨⟨url, ut, lt⟩, h1⟩⟩, ?_, ?_⟩
    · intro resp hresp
      rw [h1] at hresp
      cases hresp
      exact ⟨hurl, hut, hlt⟩
    · intro e he
      rw [h1] at he
      cases he
  case neg =>
    rw [Bool.not_eq_true] at hs
    obtain ⟨e, he, hne⟩ := chat_err_detail env st req hs
    refine ⟨⟨?_, fun hc => absurd hc (by simp [hs])⟩, ?_, ?_⟩
    · rintro ⟨resp, hresp⟩
      rw [he] at hresp
      cases hresp
    · intro resp hresp
      rw [he] at hresp
      cases hresp
    · intro e2 he2
      rw [he] at he2
      cases he2
      exact hne

/-- C8 witness: a fully successful request yields a `ChatResponse`, and a
failure detail such as the transcription 503 message is non-empty. -/
theorem C8_witness :
    (∃ resp, (conversational_chat okEnv [] (okReq "s1")).1 = .ok resp) ∧
    HErr.detail ⟨503, "Transcription service is not available."⟩ ≠ "" :=
  ⟨(C8_success_iff_all_stages okEnv [] (okReq "s1")).1.mpr (by decide),
   (C8_success_iff_all_stages ⟨false, true, "murf-key"⟩ [] (okReq "s1")).2.2
     ⟨503, "Transcription service is not available."⟩ (by rfl)⟩

/-- C9: on the modelled `WS /ws` echo channel the server first sends the
fixed greeting and thereafter answers every received text frame `f` with
`"Echo: " ++ f`; in particular a session that sends `"hello"` sees the
greeting and then `"Echo: hello"`. -/
theorem C9_echo_channel (greeting : String) :
    wsRun greeting ["hello"]
      = [.sent greeting, .received "hello", .sent "Echo: hello"] ∧
    ∀ frames : List String,
      sentMsgs (wsRun greeting frames)
        = greeting :: frames.map (fun f => "Echo: " ++ f) := by
  constructor
  · rfl
  · intro frames
    simp only [wsRun, sentMsgs]
    congr 1
    induction frames with
    | nil => rfl
    | cons f fs ih => simp [wsReplies, sentMsgs, ih]

/-- C10 witness: a fresh session id, generation raising; afterwards the
store still has no entry for it. -/
theorem C10_witness :
    (conversational_chat ⟨true, true, "murf-key"⟩ [("other", [])]
        ⟨"s1", "v", none, .result ⟨none, "hi"⟩, .raised "boom",
          fun _ => .raised "z"⟩).2 = [("other", [])] ∧
    storeLookup
      (conversational_chat ⟨true, true, "murf-key"⟩ [("other", [])]
        ⟨"s1", "v", none, .result ⟨none, "hi"⟩, .raised "boom",
          fun _ => .raised "z"⟩).2 "s1" = none :=
  C10_fresh_session_gen_failure_no_entry _ _ _ "hi" (by rfl) (by rfl) (by rfl)
